import Mathlib

/-!
# Verification of the image-converter pipeline (`src/app.py`)

A shallow embedding of the Flask image-converter's core pipeline:
format registry, save-parameter resolver, geometric transform stage
(rotation / flips / resize), watermark compositor, encode-stage mode
coercion, batch orchestration, and the preview renderer.

Modelling conventions:
* An image buffer is modelled by its pixel dimensions and PIL colour
  mode; pixel contents are not needed by any property proved here.
* Python `int(s)` on a string is modelled by `pyIntParse` (strip
  whitespace, optional sign, decimal digits; anything else raises).
* Python `float(s)` is modelled by `pyFloatParse`, returning an exact
  decimal `PyDecimal` (mantissa / 10^scale).  Exponent notation and
  specials (`inf`, `nan`) are not modelled; no property here uses them.
* Python float-ratio comparisons and `int()` truncations of ratios are
  rendered in exact integer arithmetic (cross-multiplication and
  `Int.tdiv`); for every quantity appearing in the proved properties the
  IEEE-double computation and the exact computation agree.
* PIL facts used: `Image.resize` raises `ValueError` on a non-positive
  target dimension; `Image.rotate(±90/±270, expand=True)` swaps the
  dimensions and `±180` preserves them; `Image.alpha_composite` of RGBA
  images is RGBA; `Image.thumbnail` follows Pillow's documented
  shrink-only algorithm, embedded in `thumbnailDims`.
-/

/-- Pixel dimensions of a decoded raster. -/
structure Dims where
  width : Nat
  height : Nat
deriving DecidableEq, Repr

/-- An in-memory decoded image: dimensions plus PIL colour mode. -/
structure Img where
  dims : Dims
  mode : String
deriving DecidableEq, Repr

/-- One uploaded file: the (possibly absent) client filename and the
result of decoding it (`Image.open`), which fails on corrupt input. -/
structure UploadedFile where
  filename : Option String
  data : Except String Img

instance {ε α : Type} [DecidableEq ε] [DecidableEq α] : DecidableEq (Except ε α) :=
  fun x y =>
    match x, y with
    | .ok a, .ok b => if h : a = b then .isTrue (by rw [h]) else .isFalse (by simp [h])
    | .error a, .error b => if h : a = b then .isTrue (by rw [h]) else .isFalse (by simp [h])
    | .ok _, .error _ => .isFalse (by simp)
    | .error _, .ok _ => .isFalse (by simp)

/-- Python `str.strip()` (as called by `int()` / `float()` on their
argument): drop whitespace from both ends. -/
def pyStrip (s : String) : List Char :=
  (((s.toList.dropWhile Char.isWhitespace).reverse.dropWhile Char.isWhitespace)).reverse

/-- Python `str.upper()` (ASCII inputs). -/
def pyUpper (s : String) : String :=
  ⟨s.toList.map Char.toUpper⟩

/-- Python `str.lower()` (ASCII inputs). -/
def pyLower (s : String) : String :=
  ⟨s.toList.map Char.toLower⟩

/-- Python `a or b` for a form field: `None` and `""` are falsy. -/
def pyOr (o : Option String) (d : String) : String :=
  match o with
  | none => d
  | some s => if s = "" then d else s

/-- Value of a decimal digit character. -/
def digitVal (c : Char) : Nat := c.toNat - 48

/-- Accumulate a digit list into a natural number. -/
def natOfDigits (l : List Char) : Nat :=
  l.foldl (fun n c => 10 * n + digitVal c) 0

/-- Python `int(s)` on a string: strips whitespace, accepts an optional
sign followed by one or more decimal digits, otherwise raises
`ValueError`. -/
def pyIntParse (s : String) : Except String Int :=
  let t := pyStrip s
  let (sign, ds) : Int × List Char :=
    match t with
    | '-' :: rest => (-1, rest)
    | '+' :: rest => (1, rest)
    | l => (1, l)
  if ds ≠ [] ∧ ds.all Char.isDigit then
    .ok (sign * (natOfDigits ds : Int))
  else
    .error ("invalid literal for int() with base 10: '" ++ s ++ "'")

/-- Python `int(request.form.get(k) or 0)`: a missing or empty field
yields `0`; a non-empty field is parsed (and may raise). -/
def pyIntOrZero (o : Option String) : Except String Int :=
  match o with
  | none => .ok 0
  | some s => if s = "" then .ok 0 else pyIntParse s

/-- An exact decimal number `mantissa / 10 ^ scale`, the value of a
parsed Python float literal. -/
structure PyDecimal where
  mantissa : Int
  scale : Nat
deriving DecidableEq, Repr

/-- Whether a `PyDecimal` equals the integer `n` (Python `==`). -/
def PyDecimal.eqInt (p : PyDecimal) (n : Int) : Bool :=
  p.mantissa = n * (10 : Int) ^ p.scale

/-- Python `float(s)` restricted to plain decimal literals: optional
sign, digits, optional point and fraction digits (`"5."` and `".5"` are
accepted, `""` and `"."` are not).  Exponent forms are not modelled. -/
def pyFloatParse (s : String) : Except String PyDecimal :=
  let t := pyStrip s
  let (sign, l) : Int × List Char :=
    match t with
    | '-' :: rest => (-1, rest)
    | '+' :: rest => (1, rest)
    | l => (1, l)
  let intPart := l.takeWhile Char.isDigit
  let rest := l.dropWhile Char.isDigit
  match rest with
  | [] =>
      if intPart ≠ [] then .ok ⟨sign * (natOfDigits intPart : Int), 0⟩
      else .error ("could not convert string to float: '" ++ s ++ "'")
  | '.' :: frac =>
      if frac.all Char.isDigit ∧ (intPart ≠ [] ∨ frac ≠ []) then
        .ok ⟨sign * (natOfDigits (intPart ++ frac) : Int), frac.length⟩
      else .error ("could not convert string to float: '" ++ s ++ "'")
  | _ => .error ("could not convert string to float: '" ++ s ++ "'")

/-- The `ALLOWED` registry: user token → (encoder name, extension, MIME
type). -/
def ALLOWED : List (String × String × String × String) :=
  [ ("PNG",  ("PNG",  "png",  "image/png")),
    ("JPEG", ("JPEG", "jpg",  "image/jpeg")),
    ("WEBP", ("WEBP", "webp", "image/webp")),
    ("GIF",  ("GIF",  "gif",  "image/gif")),
    ("BMP",  ("BMP",  "bmp",  "image/bmp")),
    ("TIFF", ("TIFF", "tiff", "image/tiff")) ]

/-- Look a format token up in `ALLOWED` (`target not in ALLOWED` check
plus the `ALLOWED[target]` accesses). -/
def allowedLookup (t : String) : Option (String × String × String) :=
  (ALLOWED.find? (fun e => e.1 == t)).map (·.2)

/-- Format-specific encoder parameters returned by
`build_save_params`. -/
inductive SaveParams where
  /-- `{"quality": q}` for JPEG/WEBP. -/
  | quality (q : Int)
  /-- `{"optimize": True, "compress_level": c}` for PNG. -/
  | png (optimize : Bool) (compress_level : Int)
  /-- `{}` for every other format. -/
  | empty
deriving DecidableEq, Repr

/-- `max(1, min(int(quality or 85), 100))`, the quality clamp, applied
to the already-parsed integer value. -/
def clampQuality (qv : Int) : Int := max 1 (min qv 100)

/-- PNG compression level `max(0, min(9, 9 - int(q / 11.12)))`.  For the
clamped domain `1 ≤ q ≤ 100` the IEEE-double `int(q / 11.12)` equals the
exact `⌊100 * q / 1112⌋` used here (checked exhaustively). -/
def pngCompressLevel (q : Int) : Int :=
  max 0 (min 9 (9 - ((q.toNat * 100) / 1112 : Nat)))

/-- `build_save_params(fmt, quality)`: parses the quality string
(`int(quality or 85)`, which raises on a malformed non-empty string),
clamps it to `[1, 100]`, and returns the format-specific parameters. -/
def build_save_params (fmt : String) (quality : String) : Except String SaveParams := do
  let qv ← if quality = "" then pure (85 : Int) else pyIntParse quality
  let q := clampQuality qv
  if fmt = "JPEG" ∨ fmt = "WEBP" then
    pure (.quality q)
  else if fmt = "PNG" then
    pure (.png true (pngCompressLevel q))
  else
    pure .empty

/-- Dimension effect of `img.rotate(-angle, expand=True)` guarded by
`angle in [90, 180, 270]`: right-angle rotation with expansion swaps the
dimensions for 90/270 and preserves them for 180; any other angle skips
the rotate call. -/
def rotateDims (angle : Int) (d : Dims) : Dims :=
  if angle = 90 ∨ angle = 180 ∨ angle = 270 then
    if angle = 180 then d else ⟨d.height, d.width⟩
  else d

/-- `apply_transformations`: the rotate field is truthiness-tested (an
empty string skips the `int` call entirely), then parsed; flips
(`transpose`) change neither dimensions nor mode. -/
def apply_transformations (rotate : String) (flipH flipV : Bool) (img : Img) :
    Except String Img :=
  if rotate = "" then .ok img
  else
    match pyIntParse rotate with
    | .error e => .error e
    | .ok a => .ok { img with dims := rotateDims a img.dims }

/-- `ImageOps.exif_transpose`: applies orientation metadata and drops
the tag.  Orientation metadata is not part of the modelled buffer, so on
the model it is the identity. -/
def exif_transpose (img : Img) : Img := img

/-- PIL `Image.resize((w, h))`: raises `ValueError` unless both target
dimensions are positive. -/
def pilResize (w h : Int) : Except String Dims :=
  if 1 ≤ w ∧ 1 ≤ h then .ok ⟨w.toNat, h.toNat⟩
  else .error "height and width must be > 0"

/-- One percent-scaled dimension: `max(1, int(dim * percent / 100))`,
in exact decimal arithmetic (`p = mantissa / 10 ^ scale`), with `int()`
truncation toward zero. -/
def percentDim (dim : Nat) (p : PyDecimal) : Int :=
  max 1 (Int.tdiv ((dim : Int) * p.mantissa) (100 * (10 : Int) ^ p.scale))

/-- The aspect-preserving fit of lines 213–223: compare
`img_ratio = W/H` with `target_ratio = w/h` (rendered exactly as
`W * h > w * H`); fit to width and derive the height as
`int(w / img_ratio) = trunc(w * H / W)`, or fit to height and derive the
width as `int(h * img_ratio) = trunc(h * W / H)`. -/
def fitAspect (W H : Nat) (w h : Int) : Int × Int :=
  if (W : Int) * h > w * (H : Int) then
    (w, Int.tdiv (w * (H : Int)) W)
  else
    (Int.tdiv (h * (W : Int)) H, h)

/-- The resize step of `convert` (lines 200–227), branching on `mode`:
`percent` parses the percent field (`float(... or "100")`), skips when it
equals 100, otherwise scales both dimensions with a minimum of 1;
`exact` parses width/height (`int(... or 0)`), skips unless both are
positive, and either fits the aspect ratio or resizes directly; any
other mode leaves the image unchanged.  The `exact` aspect branch
divides by the image height, so a zero-height image raises
`ZeroDivisionError` there. -/
def resizeStep (mode : String) (percent width height : Option String)
    (preserveAspect : Bool) (d : Dims) : Except String Dims :=
  if mode = "percent" then
    match pyFloatParse (pyOr percent "100") with
    | .error e => .error e
    | .ok p =>
        if p.eqInt 100 then .ok d
        else pilResize (percentDim d.width p) (percentDim d.height p)
  else if mode = "exact" then
    match pyIntOrZero width with
    | .error e => .error e
    | .ok w =>
        match pyIntOrZero height with
        | .error e => .error e
        | .ok h =>
            if w > 0 ∧ h > 0 then
              if preserveAspect then
                if d.height = 0 then .error "division by zero"
                else
                  let wh := fitAspect d.width d.height w h
                  pilResize wh.1 wh.2
              else pilResize w h
            else .ok d
  else .ok d

/-- Watermark anchor of lines 86–101: top-left corner of the text box
for each named position, 20-pixel margin, unknown positions centred
(Python `//` is floor division). -/
def watermarkXY (position : String) (imgW imgH textW textH : Int) : Int × Int :=
  if position = "bottom-right" then (imgW - textW - 20, imgH - textH - 20)
  else if position = "bottom-left" then (20, imgH - textH - 20)
  else if position = "top-right" then (imgW - textW - 20, 20)
  else if position = "top-left" then (20, 20)
  else ((imgW - textW).fdiv 2, (imgH - textH).fdiv 2)

/-- `add_watermark`: a no-op for empty text; otherwise the image is
converted to RGBA if needed and alpha-composited with a same-size RGBA
overlay, so the dimensions are unchanged and the mode becomes RGBA.
The anchor (`watermarkXY`), fill and opacity affect only pixel
contents. -/
def add_watermark (img : Img) (text : String) (position : String) (opacity : Int) : Img :=
  if text = "" then img else { img with mode := "RGBA" }

/-- Encode-stage mode coercion (lines 235–236): targets that cannot
keep alpha/palette (`JPEG`, `BMP`, `TIFF`) convert the image to RGB when
its mode is exactly `RGBA` or `P`; every other mode and every other
target is left as is. -/
def encodeCoerceMode (fmt : String) (mode : String) : String :=
  if (fmt = "JPEG" ∨ fmt = "BMP" ∨ fmt = "TIFF") ∧ (mode = "RGBA" ∨ mode = "P")
  then "RGB" else mode

/-- PIL colour modes carrying an alpha band. -/
def pilHasAlpha (mode : String) : Bool :=
  mode = "RGBA" ∨ mode = "LA" ∨ mode = "PA" ∨ mode = "RGBa" ∨ mode = "La"

/-- PIL palette modes. -/
def pilIsPalette (mode : String) : Bool :=
  mode = "P" ∨ mode = "PA"

/-- Modelled from the spec (for comparison with `encodeCoerceMode`):
"if the target format cannot represent transparency/palette modes
(JPEG, BMP, TIFF) and the current image carries an alpha channel or
palette mode, convert to a plain 3-channel representation first". -/
def specCoerceMode (fmt : String) (mode : String) : String :=
  if (fmt = "JPEG" ∨ fmt = "BMP" ∨ fmt = "TIFF") ∧
      (pilHasAlpha mode ∨ pilIsPalette mode)
  then "RGB" else mode

/-- `filename.rsplit(".", 1)[0]`: the part before the last dot, or the
whole string when there is none. -/
def stem (s : String) : String :=
  let l := s.toList
  if l.contains '.' then ⟨((l.reverse.dropWhile (· ≠ '.')).tail).reverse⟩ else s

/-- A serialized output image: what `img.save(buf, fmt, **save_params)`
wrote — the final dimensions, mode, encoder name and parameters. -/
structure EncodedImg where
  dims : Dims
  mode : String
  fmt : String
  params : SaveParams
deriving DecidableEq, Repr

/-- The response of the `/api/convert` handler. -/
inductive ConvertResponse where
  /-- A 400 JSON error (missing file / unsupported format). -/
  | badRequest (msg : String)
  /-- A 500 JSON error from the handler's `except` clause. -/
  | serverError (msg : String)
  /-- An exception raised before the `try` block (the watermark-opacity
  `int()` at line 186), left to Flask's generic handler. -/
  | unhandled (msg : String)
  /-- `send_file(buf, as_attachment=True, download_name, mimetype)`. -/
  | singleFile (downloadName : String) (mime : String) (payload : EncodedImg)
  /-- `send_file` of a ZIP archive built with the given compression. -/
  | zipArchive (downloadName : String) (compression : String)
      (entries : List (String × EncodedImg))
deriving DecidableEq, Repr

/-- The per-file body of the `for file in files` loop (lines 193–244):
decode, orientation-normalize, transform, resize, watermark, coerce the
mode for the target, resolve save parameters, serialize, and derive the
output filename from the original stem plus the target extension. -/
def processFile (mode : String) (percent width height : Option String)
    (preserveAspect : Bool) (rotate : String) (flipH flipV : Bool)
    (wmText wmPos : String) (wmOpacity : Int)
    (fmt ext : String) (quality : String)
    (file : UploadedFile) : Except String (String × EncodedImg) := do
  let img ← file.data
  let img := exif_transpose img
  let img ← apply_transformations rotate flipH flipV img
  let d ← resizeStep mode percent width height preserveAspect img.dims
  let img : Img := { img with dims := d }
  let img := if wmText ≠ "" then add_watermark img wmText wmPos wmOpacity else img
  let img : Img := { img with mode := encodeCoerceMode fmt img.mode }
  let params ← build_save_params fmt quality
  let filename := stem (pyOr file.filename ("image." ++ ext)) ++ "." ++ ext
  pure (filename, { dims := img.dims, mode := img.mode, fmt := fmt, params := params })

/-- The `for file in files` loop under the handler's `try`: process the
files in input order, collecting one output per file; the first raised
exception aborts the whole loop. -/
def mapExcept {α β : Type} (f : α → Except String β) : List α → Except String (List β)
  | [] => .ok []
  | a :: t =>
      match f a with
      | .error e => .error e
      | .ok b =>
          match mapExcept f t with
          | .error e => .error e
          | .ok bs => .ok (b :: bs)

/-- The flat form fields of a conversion request (all optional). -/
structure ConvertForm where
  format : Option String := none
  mode : Option String := none
  quality : Option String := none
  percent : Option String := none
  width : Option String := none
  height : Option String := none
  preserve_aspect : Option String := none
  rotate : Option String := none
  flip_horizontal : Option String := none
  flip_vertical : Option String := none
  watermark_text : Option String := none
  watermark_position : Option String := none
  watermark_opacity : Option String := none

/-- `processFile` with its shared per-request configuration read from
the form with the handler's defaulting (lines 173–189). -/
def convertFileStep (form : ConvertForm) (wmOpacity : Int) (fmt ext : String)
    (file : UploadedFile) : Except String (String × EncodedImg) :=
  processFile (pyLower (pyOr form.mode "none")) form.percent form.width form.height
    (form.preserve_aspect == some "true") (form.rotate.getD "0")
    (form.flip_horizontal == some "true") (form.flip_vertical == some "true")
    (form.watermark_text.getD "") (form.watermark_position.getD "bottom-right")
    wmOpacity fmt ext (form.quality.getD "85") file

/-- The `/api/convert` handler: field defaulting, format lookup (400 on
an unknown token), the watermark-opacity `int()` outside the `try`, the
per-file loop inside it (any failure yields one 500 JSON error and no
output), and the single-file / ZIP decision on the collected outputs. -/
def convert (form : ConvertForm) (files : List UploadedFile) : ConvertResponse :=
  if files.isEmpty then .badRequest "No file uploaded"
  else
    let target := pyUpper (pyOr form.format "PNG")
    match allowedLookup target with
    | none => .badRequest "Unsupported format"
    | some (fmt, ext, mime) =>
        match pyIntParse (form.watermark_opacity.getD "128") with
        | .error e => .unhandled e
        | .ok wmOpacity =>
            match mapExcept (convertFileStep form wmOpacity fmt ext) files with
            | .error e => .serverError e
            | .ok outs =>
                match outs with
                | [single] => .singleFile single.1 mime single.2
                | _ => .zipArchive "images.zip" "deflate" outs

/-- Pillow `thumbnail` x-branch rounding: `round_aspect(400 * aspect,
key = |aspect - n/400|)` picks the nearer of floor/ceil of `400 * W / H`
(ties to floor, Python `min` keeping the first argument) with a minimum
of 1. -/
def thumbRoundX (W H : Nat) : Nat :=
  let N := 400 * W
  let f := N / H
  let r := N % H
  max 1 (if H < 2 * r then f + 1 else f)

/-- Pillow `thumbnail` y-branch rounding: `round_aspect(400 / aspect,
key n = 0 if n == 0 else |aspect - 400/n|)` over floor/ceil of
`400 * H / W`; with `a = W/H`, `t = 400H/W`, `f = ⌊t⌋`, `c = ⌈t⌉` the
comparison `key f ≤ key c` is `(400/f - a) ≤ (a - 400/c)`, i.e.
`400H(c + f) ≤ 2fcW`; minimum 1. -/
def thumbRoundY (W H : Nat) : Nat :=
  let N := 400 * H
  let f := N / W
  let c := if N % W = 0 then f else f + 1
  max 1 (if f = 0 then 0 else if N * (c + f) ≤ 2 * f * c * W then f else c)

/-- Dimension effect of `img.thumbnail((400, 400), LANCZOS)` (Pillow):
return unchanged when the image already fits in the box; otherwise fit
the aspect ratio, branching on `400/400 >= aspect` i.e. `H ≥ W` (the
aspect division raises on a zero height). -/
def thumbnailDims (d : Dims) : Except String Dims :=
  if 400 ≥ d.width ∧ 400 ≥ d.height then .ok d
  else if d.height = 0 then .error "division by zero"
  else if d.height ≥ d.width then .ok ⟨thumbRoundX d.width d.height, 400⟩
  else .ok ⟨400, thumbRoundY d.width d.height⟩

/-- The result of the `/api/preview` handler. -/
inductive PreviewResult where
  /-- A 500 JSON error from the handler's `except` clause. -/
  | err (msg : String)
  /-- An exception raised before the `try` block (the watermark-opacity
  `int()` at line 281). -/
  | unhandled (msg : String)
  /-- Success: the PNG written into the data URI, and the
  `"dimensions"` JSON field (width/height read from the image after
  `thumbnail`). -/
  | ok (encodedPng : Img) (reported : Dims)
deriving DecidableEq, Repr

/-- The `/api/preview` handler (lines 264–310): decode, orientation-
normalize, transform, watermark, thumbnail to the 400×400 box, encode
as PNG, and report the final dimensions of that same image. -/
def preview_image (rotate : String) (flipH flipV : Bool)
    (wmText wmPos : String) (wmOpacityStr : String)
    (file : UploadedFile) : PreviewResult :=
  match pyIntParse wmOpacityStr with
  | .error e => .unhandled e
  | .ok wmOpacity =>
      let r : Except String Img := do
        let img ← file.data
        let img := exif_transpose img
        let img ← apply_transformations rotate flipH flipV img
        let img := if wmText ≠ "" then add_watermark img wmText wmPos wmOpacity else img
        let d ← thumbnailDims img.dims
        pure { img with dims := d }
      match r with
      | .error e => .err e
      | .ok img => .ok img img.dims

/-! ## Concrete fixtures -/

/-- A well-formed 1600×900 RGB upload. -/
def samplePhoto : UploadedFile := ⟨some "photo.png", .ok ⟨⟨1600, 900⟩, "RGB"⟩⟩

/-- A 1000×1 RGB upload (extreme aspect ratio). -/
def sampleLine : UploadedFile := ⟨some "line.png", .ok ⟨⟨1000, 1⟩, "RGB"⟩⟩

/-- An upload whose decode fails (corrupt data). -/
def sampleCorrupt : UploadedFile := ⟨some "broken.dat", .error "cannot identify image file"⟩

/-! ## Claims -/

/-- C2: the save-parameter resolver clamps the quality to `[1, 100]`;
JPEG and WEBP receive the clamped quality directly; PNG receives
`optimize = True` and `compress_level = clamp(9 - floor(q / 11.12), 0, 9)`,
which lies in `[0, 9]` and is monotonically non-increasing in the
quality; the remaining formats receive no parameters.  (The resolver is
a pure function of its arguments, hence deterministic.) -/
theorem save_params_resolver (qs : String) (qv : Int)
    (hq : pyIntParse qs = .ok qv) (hne : qs ≠ "") :
    build_save_params "JPEG" qs = .ok (.quality (clampQuality qv)) ∧
    build_save_params "WEBP" qs = .ok (.quality (clampQuality qv)) ∧
    build_save_params "PNG" qs = .ok (.png true (pngCompressLevel (clampQuality qv))) ∧
    (∀ fmt, fmt = "GIF" ∨ fmt = "BMP" ∨ fmt = "TIFF" →
        build_save_params fmt qs = .ok .empty) ∧
    (1 ≤ clampQuality qv ∧ clampQuality qv ≤ 100) ∧
    (0 ≤ pngCompressLevel (clampQuality qv) ∧ pngCompressLevel (clampQuality qv) ≤ 9) ∧
    (∀ q1 q2 : Int, q1 ≤ q2 →
        pngCompressLevel (clampQuality q2) ≤ pngCompressLevel (clampQuality q1)) := by
  have hstep : ∀ fmt : String, build_save_params fmt qs =
      (if fmt = "JPEG" ∨ fmt = "WEBP" then .ok (.quality (clampQuality qv))
       else if fmt = "PNG" then .ok (.png true (pngCompressLevel (clampQuality qv)))
       else .ok .empty) := by
    intro fmt
    simp only [build_save_params, if_neg hne, hq, Bind.bind, Except.bind, pure, Except.pure]
  refine ⟨by rw [hstep]; simp, by rw [hstep]; simp, by rw [hstep]; simp, ?_, ?_, ?_, ?_⟩
  · intro fmt hf
    rcases hf with rfl | rfl | rfl <;> rw [hstep] <;> simp
  · simp only [clampQuality]; omega
  · simp only [pngCompressLevel, clampQuality]; omega
  · intro q1 q2 h12
    simp only [pngCompressLevel, clampQuality]
    omega

/-- Witness for C2 at quality string `"85"`. -/
theorem save_params_resolver_witness :
    build_save_params "JPEG" "85" = .ok (.quality (clampQuality 85)) ∧
    build_save_params "PNG" "85" = .ok (.png true (pngCompressLevel (clampQuality 85))) ∧
    build_save_params "GIF" "85" = .ok .empty ∧
    pngCompressLevel (clampQuality 90) ≤ pngCompressLevel (clampQuality 30) := by
  have h := save_params_resolver "85" 85 (by decide) (by decide)
  exact ⟨h.1, h.2.2.1, h.2.2.2.1 "GIF" (Or.inl rfl), h.2.2.2.2.2.2 30 90 (by decide)⟩

/-- C3: exact-mode aspect-preserving resize fits to the width and
derives the height when the image ratio exceeds the target ratio
(`W/H > w/h`, rendered as `W*h > w*H`), otherwise fits to the height
and derives the width; the result never exceeds the requested box on
either axis. -/
theorem exact_aspect_fit (W H : Nat) (w h : Int)
    (hW : 1 ≤ W) (hH : 1 ≤ H) (hw : 0 < w) (hh : 0 < h) :
    (fitAspect W H w h).1 ≤ w ∧ (fitAspect W H w h).2 ≤ h ∧
    ((W : Int) * h > w * (H : Int) → fitAspect W H w h = (w, Int.tdiv (w * (H : Int)) W)) ∧
    ((W : Int) * h ≤ w * (H : Int) → fitAspect W H w h = (Int.tdiv (h * (W : Int)) H, h)) := by
  have hWpos : (0 : Int) < (W : Int) := by exact_mod_cast hW
  have hHpos : (0 : Int) < (H : Int) := by exact_mod_cast hH
  unfold fitAspect
  by_cases hc : (W : Int) * h > w * (H : Int)
  · rw [if_pos hc]
    have h0 : (0 : Int) ≤ w * (H : Int) := mul_nonneg (le_of_lt hw) (le_of_lt hHpos)
    have hbound : Int.tdiv (w * (H : Int)) W ≤ h := by
      rw [Int.tdiv_eq_ediv h0 (le_of_lt hWpos)]
      calc w * (H : Int) / W ≤ ((W : Int) * h) / W := Int.ediv_le_ediv hWpos (le_of_lt hc)
        _ = h := Int.mul_ediv_cancel_left h (ne_of_gt hWpos)
    exact ⟨le_refl w, hbound, fun _ => rfl, fun hle => absurd hc (not_lt.mpr hle)⟩
  · rw [if_neg hc]
    push_neg at hc
    have h0 : (0 : Int) ≤ h * (W : Int) := mul_nonneg (le_of_lt hh) (le_of_lt hWpos)
    have hbound : Int.tdiv (h * (W : Int)) H ≤ w := by
      rw [Int.tdiv_eq_ediv h0 (le_of_lt hHpos)]
      have hmul : h * (W : Int) ≤ w * (H : Int) := by
        calc h * (W : Int) = (W : Int) * h := by ring
          _ ≤ w * (H : Int) := hc
      calc h * (W : Int) / H ≤ (w * (H : Int)) / H := Int.ediv_le_ediv hHpos hmul
        _ = w := by rw [mul_comm w ((H : Int))]; exact Int.mul_ediv_cancel_left w (ne_of_gt hHpos)
    exact ⟨hbound, le_refl h, fun hgt => absurd hgt (not_lt.mpr hc), fun _ => rfl⟩

/-- Witness for C3 at the spec's scenario: 1600×900 into an 800×600 box
gives exactly 800×450. -/
theorem exact_aspect_fit_witness :
    (fitAspect 1600 900 800 600).1 ≤ 800 ∧ (fitAspect 1600 900 800 600).2 ≤ 600 ∧
    fitAspect 1600 900 800 600 = (800, 450) := by
  have h := exact_aspect_fit 1600 900 800 600 (by decide) (by decide) (by decide) (by decide)
  exact ⟨h.1, h.2.1, by decide⟩

/-- C8: rotation by 90/270 swaps the dimensions (clockwise rotation
with `expand=True`, no cropping), 180 preserves them, any other angle
is a no-op, and four successive 90° rotations restore the original
dimensions. -/
theorem rotation_dims (d : Dims) (a : Int) (ha : a ≠ 90 ∧ a ≠ 180 ∧ a ≠ 270) :
    rotateDims 90 (rotateDims 90 (rotateDims 90 (rotateDims 90 d))) = d ∧
    rotateDims 90 d = ⟨d.height, d.width⟩ ∧
    rotateDims 180 d = d ∧
    rotateDims 270 d = ⟨d.height, d.width⟩ ∧
    rotateDims a d = d := by
  obtain ⟨h1, h2, h3⟩ := ha
  exact ⟨rfl, rfl, rfl, rfl, by simp [rotateDims, h1, h2, h3]⟩

/-- Witness for C8 at a 3×5 image and angle 45. -/
theorem rotation_dims_witness :
    rotateDims 90 (rotateDims 90 (rotateDims 90 (rotateDims 90 ⟨3, 5⟩))) = ⟨3, 5⟩ ∧
    rotateDims 90 ⟨3, 5⟩ = ⟨5, 3⟩ ∧
    rotateDims 180 ⟨3, 5⟩ = ⟨3, 5⟩ ∧
    rotateDims 270 ⟨3, 5⟩ = ⟨5, 3⟩ ∧
    rotateDims 45 ⟨3, 5⟩ = ⟨3, 5⟩ :=
  rotation_dims ⟨3, 5⟩ 45 (by decide)

/-- C9: the derived dimension of an exact-mode aspect-preserving
resize is truncated with no minimum-1 clamp (unlike the percent path,
whose `max(1, ...)` keeps every dimension at least 1): a 1000×1 source
into a 100×100 box derives height 0, the resize call rejects the zero
dimension, and the whole request becomes a 500 error instead of an
output. -/
theorem exact_aspect_zero_dim :
    fitAspect 1000 1 100 100 = (100, 0) ∧
    resizeStep "exact" none (some "100") (some "100") true ⟨1000, 1⟩ =
      .error "height and width must be > 0" ∧
    convert { mode := some "exact", width := some "100", height := some "100",
              preserve_aspect := some "true" } [sampleLine] =
      .serverError "height and width must be > 0" ∧
    (∀ (dim : Nat) (p : PyDecimal), 1 ≤ percentDim dim p) := by
  refine ⟨by decide, by decide, by decide, fun dim p => le_max_left 1 _⟩

/-- C1 counterexample: a malformed `width="abc"` with `mode=exact` is
not treated as 0 — `int("abc")` raises inside the `try`, so the request
fails with a 500 error response instead of skipping the resize. -/
theorem malformed_width_errors :
    resizeStep "exact" none (some "abc") (some "600") false ⟨1600, 900⟩
      = .error "invalid literal for int() with base 10: 'abc'" ∧
    convert { format := some "jpeg", mode := some "exact", width := some "abc",
              height := some "600" } [samplePhoto]
      = .serverError "invalid literal for int() with base 10: 'abc'" := by
  exact ⟨by decide, by decide⟩

/-- C1 amended: only missing or *empty* width/height/percent fields are
treated as 0 / skip (the resize step is skipped and the pipeline
continues); a malformed non-empty value raises in `int()` / `float()`
and the request fails with an error. -/
theorem missing_resize_values_skip (d : Dims) (pa : Bool)
    (percent w h : Option String)
    (hw : w = none ∨ w = some "") (hh : h = none ∨ h = some "") :
    resizeStep "exact" percent w h pa d = .ok d ∧
    resizeStep "percent" none w h pa d = .ok d ∧
    resizeStep "percent" (some "") w h pa d = .ok d ∧
    (∀ s e, pyIntParse s = .error e → s ≠ "" →
        resizeStep "exact" percent (some s) h pa d = .error e) ∧
    (∀ s e, pyFloatParse s = .error e → s ≠ "" →
        resizeStep "percent" (some s) w h pa d = .error e) := by
  have h100 : pyFloatParse "100" = .ok ⟨100, 0⟩ := by decide
  refine ⟨?_, ?_, ?_, ?_, ?_⟩
  · rcases hw with rfl | rfl <;> rcases hh with rfl | rfl <;>
      simp [resizeStep, pyIntOrZero]
  · simp [resizeStep, pyOr, h100, PyDecimal.eqInt]
  · simp [resizeStep, pyOr, h100, PyDecimal.eqInt]
  · intro s e hs hne
    simp [resizeStep, pyIntOrZero, hne, hs]
  · intro s e hs hne
    simp [resizeStep, pyOr, hne, hs]

/-- Witness for C1's amended claim: missing values skip the resize; a
malformed width makes the step fail. -/
theorem missing_resize_values_skip_witness :
    resizeStep "exact" none none none false ⟨1600, 900⟩ = .ok ⟨1600, 900⟩ ∧
    resizeStep "exact" none (some "abc") none false ⟨1600, 900⟩
      = .error "invalid literal for int() with base 10: 'abc'" := by
  have h := missing_resize_values_skip ⟨1600, 900⟩ false none none none
    (Or.inl rfl) (Or.inl rfl)
  exact ⟨h.1, h.2.2.2.1 "abc" _ (by decide) (by decide)⟩

/-- A failing element makes the whole per-file loop fail. -/
theorem mapExcept_error_of_mem {α β : Type} (f : α → Except String β) (l : List α)
    (x : α) (hx : x ∈ l) (e : String) (he : f x = .error e) :
    ∃ msg, mapExcept f l = .error msg := by
  induction l with
  | nil => cases hx
  | cons a t ih =>
      rcases List.mem_cons.mp hx with rfl | hx'
      · exact ⟨e, by simp [mapExcept, he]⟩
      · cases hfa : f a with
        | error e' => exact ⟨e', by simp [mapExcept, hfa]⟩
        | ok b =>
            obtain ⟨msg, hm⟩ := ih hx'
            exact ⟨msg, by simp [mapExcept, hfa, hm]⟩

/-- C4: a failure while processing any single file of a batch aborts
the whole request with a single 500 error response — the
`ConvertResponse.serverError` constructor carries no encoded output,
so nothing already encoded is returned. -/
theorem batch_failure_aborts (form : ConvertForm) (files : List UploadedFile)
    (fmt ext mime : String) (op : Int)
    (hfmt : allowedLookup (pyUpper (pyOr form.format "PNG")) = some (fmt, ext, mime))
    (hop : pyIntParse (form.watermark_opacity.getD "128") = .ok op)
    (f : UploadedFile) (hf : f ∈ files) (e : String)
    (hfail : convertFileStep form op fmt ext f = .error e) :
    ∃ msg, convert form files = .serverError msg := by
  obtain ⟨msg, hm⟩ := mapExcept_error_of_mem _ files f hf e hfail
  have hne : files.isEmpty = false := by
    cases files
    · cases hf
    · rfl
  exact ⟨msg, by simp only [convert, hne, Bool.false_eq_true, if_false, hfmt, hop, hm]⟩

/-- Witness for C4: a good file followed by a corrupt one yields a
single error response. -/
theorem batch_failure_aborts_witness :
    ∃ msg, convert {} [samplePhoto, sampleCorrupt] = .serverError msg :=
  batch_failure_aborts {} [samplePhoto, sampleCorrupt] "PNG" "png" "image/png" 128
    (by decide) (by decide) sampleCorrupt
    (List.mem_cons_of_mem samplePhoto (List.mem_cons_self sampleCorrupt []))
    "cannot identify image file" (by decide)

/-- A successful per-file loop yields one output per input. -/
theorem mapExcept_ok_length {α β : Type} (f : α → Except String β) :
    ∀ (l : List α) (ys : List β), mapExcept f l = .ok ys → ys.length = l.length := by
  intro l
  induction l with
  | nil => intro ys h; simp [mapExcept] at h; simp [← h]
  | cons a t ih =>
      intro ys h
      cases hfa : f a with
      | error e => simp [mapExcept, hfa] at h
      | ok b =>
          cases hmt : mapExcept f t with
          | error e => simp [mapExcept, hfa, hmt] at h
          | ok bs =>
              simp [mapExcept, hfa, hmt] at h
              simp [← h, ih bs hmt]

/-- The output filename produced by a successful `processFile` run is
the original filename's stem (generic `image.<ext>` when absent) plus
the target extension. -/
theorem processFile_filename (mode : String) (percent width height : Option String)
    (pa : Bool) (rotate : String) (fH fV : Bool) (wmT wmP : String) (wmO : Int)
    (fmt ext quality : String) (file : UploadedFile) (nm : String) (enc : EncodedImg)
    (h : processFile mode percent width height pa rotate fH fV wmT wmP wmO
        fmt ext quality file = .ok (nm, enc)) :
    nm = stem (pyOr file.filename ("image." ++ ext)) ++ "." ++ ext := by
  simp only [processFile, Bind.bind, Except.bind, Pure.pure, Except.pure] at h
  repeat' split at h
  all_goals simp_all

/-- C5: each output filename is the original stem plus the target
extension (generic name when the filename is absent); exactly one
output is sent directly as an attachment with the format's MIME type
and that filename; two or more outputs are packaged into one
deflate-compressed archive with the fixed name `images.zip`. -/
theorem batch_response_shape (form : ConvertForm) (files : List UploadedFile)
    (fmt ext mime : String) (op : Int)
    (hfmt : allowedLookup (pyUpper (pyOr form.format "PNG")) = some (fmt, ext, mime))
    (hop : pyIntParse (form.watermark_opacity.getD "128") = .ok op) :
    (∀ (f : UploadedFile) (nm : String) (enc : EncodedImg),
        convertFileStep form op fmt ext f = .ok (nm, enc) →
        nm = stem (pyOr f.filename ("image." ++ ext)) ++ "." ++ ext) ∧
    (∀ o, mapExcept (convertFileStep form op fmt ext) files = .ok [o] →
        convert form files = .singleFile o.1 mime o.2) ∧
    (∀ outs, mapExcept (convertFileStep form op fmt ext) files = .ok outs →
        2 ≤ outs.length →
        convert form files = .zipArchive "images.zip" "deflate" outs) := by
  refine ⟨?_, ?_, ?_⟩
  · intro f nm enc h
    exact processFile_filename _ _ _ _ _ _ _ _ _ _ _ _ _ _ _ _ _ h
  · intro o hmap
    have hlen : files.length = 1 := by
      have := mapExcept_ok_length _ files [o] hmap
      simpa using this.symm
    have hne : files.isEmpty = false := by
      cases files <;> simp_all
    simp only [convert, hne, Bool.false_eq_true, if_false, hfmt, hop, hmap]
  · intro outs hmap h2
    have hlen := mapExcept_ok_length _ files outs hmap
    have hne : files.isEmpty = false := by
      cases files
      · have h0 : outs.length = 0 := by simpa using hlen
        omega
      · rfl
    match outs, h2 with
    | o1 :: o2 :: rest, _ =>
        simp only [convert, hne, Bool.false_eq_true, if_false, hfmt, hop, hmap]

/-- Witness for C5: one file → direct attachment with the derived name
and MIME type; two files → one deflate ZIP named `images.zip`. -/
theorem batch_response_shape_witness :
    convert {} [samplePhoto] = .singleFile "photo.png" "image/png"
      ⟨⟨1600, 900⟩, "RGB", "PNG", .png true 2⟩ ∧
    convert {} [samplePhoto, sampleLine] = .zipArchive "images.zip" "deflate"
      [("photo.png", ⟨⟨1600, 900⟩, "RGB", "PNG", .png true 2⟩),
       ("line.png", ⟨⟨1000, 1⟩, "RGB", "PNG", .png true 2⟩)] := by
  have h1 := (batch_response_shape {} [samplePhoto] "PNG" "png" "image/png" 128
      (by decide) (by decide)).2.1
      ("photo.png", ⟨⟨1600, 900⟩, "RGB", "PNG", .png true 2⟩) (by decide)
  have h2 := (batch_response_shape {} [samplePhoto, sampleLine] "PNG" "png" "image/png" 128
      (by decide) (by decide)).2.2
      [("photo.png", ⟨⟨1600, 900⟩, "RGB", "PNG", .png true 2⟩),
       ("line.png", ⟨⟨1000, 1⟩, "RGB", "PNG", .png true 2⟩)] (by decide) (by decide)
  exact ⟨h1, h2⟩

/-- C6 counterexample: a non-numeric quality value is not treated as
85 — `int("abc")` raises and the request fails with a 500 error, while
quality `"85"` succeeds. -/
theorem invalid_quality_not_defaulted :
    convert { quality := some "abc" } [samplePhoto]
      = .serverError "invalid literal for int() with base 10: 'abc'" ∧
    convert { quality := some "85" } [samplePhoto]
      = .singleFile "photo.png" "image/png" ⟨⟨1600, 900⟩, "RGB", "PNG", .png true 2⟩ := by
  exact ⟨by decide, by decide⟩

/-- C6 amended: *absent* optional fields fall back to their documented
defaults (format→PNG, quality→85, mode→none, opacity→128,
position→bottom-right).  Empty values default only where the code
routes them through a truthiness test: format, mode, and quality (via
`int(quality or 85)`) — and an empty rotate merely skips the rotation.
They are *not* defaulted elsewhere: an empty or non-numeric watermark
opacity raises in `int()` *before* the handler's `try` block (an
unhandled exception, not 128), and an empty or unknown watermark
position is placed at the *center*, not bottom-right.  Invalid
non-empty values are likewise not all defaulted: an unknown format
token is a 400 error, a non-numeric quality makes the resolver (and
the request) fail, and an unknown resize mode merely behaves like
`none`. -/
theorem form_defaults (files : List UploadedFile) (d : Dims) (img : Img) :
    allowedLookup (pyUpper (pyOr none "PNG")) = some ("PNG", "png", "image/png") ∧
    Option.getD (none : Option String) "85" = "85" ∧
    pyIntParse (Option.getD (none : Option String) "128") = .ok 128 ∧
    Option.getD (none : Option String) "bottom-right" = "bottom-right" ∧
    pyOr (some "") "PNG" = "PNG" ∧
    pyOr (some "") "none" = "none" ∧
    build_save_params "PNG" "" = build_save_params "PNG" "85" ∧
    (∀ fH fV, apply_transformations "" fH fV img = .ok img) ∧
    (∀ s, allowedLookup (pyUpper s) = none → s ≠ "" →
        files ≠ [] → convert { format := some s } files = .badRequest "Unsupported format") ∧
    (∀ s e, pyIntParse s = .error e → s ≠ "" → build_save_params "PNG" s = .error e) ∧
    (∀ mode percent w h pa, mode ≠ "percent" → mode ≠ "exact" →
        resizeStep mode percent w h pa d = .ok d) ∧
    (∀ pos iW iH tW tH, pos ≠ "bottom-right" → pos ≠ "bottom-left" →
        pos ≠ "top-right" → pos ≠ "top-left" →
        watermarkXY pos iW iH tW tH = ((iW - tW).fdiv 2, (iH - tH).fdiv 2)) ∧
    (∀ s e, pyIntParse s = .error e → files ≠ [] →
        convert { watermark_opacity := some s } files = .unhandled e) := by
  refine ⟨by decide, rfl, by decide, rfl, rfl, rfl, by decide,
          fun fH fV => rfl, ?_, ?_, ?_, ?_, ?_⟩
  · intro s hs hse hne
    have hemp : files.isEmpty = false := by
      cases files
      · exact absurd rfl hne
      · rfl
    simp only [convert, hemp, Bool.false_eq_true, if_false, pyOr, if_neg hse, hs]
  · intro s e hs hne
    simp [build_save_params, hne, hs, Bind.bind, Except.bind]
  · intro mode percent w h pa h1 h2
    simp [resizeStep, h1, h2]
  · intro pos iW iH tW tH h1 h2 h3 h4
    simp [watermarkXY, h1, h2, h3, h4]
  · intro s e hs hne
    have hemp : files.isEmpty = false := by
      cases files
      · exact absurd rfl hne
      · rfl
    have hfmt : allowedLookup (pyUpper (pyOr none "PNG")) = some ("PNG", "png", "image/png") :=
      by decide
    simp only [convert, hemp, Bool.false_eq_true, if_false, Option.getD, hs, hfmt]

/-- Witness for C6's amended claim: an unknown resize mode acts like
`none`; an *empty* and an unknown watermark position are both centred;
an unknown format token is a 400 error; an *empty* and a non-numeric
opacity both escape the handler's error guard instead of defaulting
to 128. -/
theorem form_defaults_witness :
    resizeStep "weird" none none none false ⟨10, 20⟩ = .ok ⟨10, 20⟩ ∧
    watermarkXY "" 200 100 50 10 = ((200 - 50 : Int).fdiv 2, (100 - 10 : Int).fdiv 2) ∧
    watermarkXY "middle" 200 100 50 10 = ((200 - 50 : Int).fdiv 2, (100 - 10 : Int).fdiv 2) ∧
    convert { format := some "heic" } [samplePhoto] = .badRequest "Unsupported format" ∧
    convert { watermark_opacity := some "" } [samplePhoto]
      = .unhandled "invalid literal for int() with base 10: ''" ∧
    convert { watermark_opacity := some "abc" } [samplePhoto]
      = .unhandled "invalid literal for int() with base 10: 'abc'" := by
  obtain ⟨-, -, -, -, -, -, -, -, h9, -, h11, h12, h13⟩ :=
    form_defaults [samplePhoto] ⟨10, 20⟩ ⟨⟨10, 20⟩, "RGB"⟩
  refine ⟨h11 "weird" none none none false (by decide) (by decide),
          h12 "" 200 100 50 10 (by decide) (by decide) (by decide) (by decide),
          h12 "middle" 200 100 50 10 (by decide) (by decide) (by decide) (by decide),
          h9 "heic" (by decide) (by decide) (by simp),
          h13 "" _ (by decide) (by simp),
          h13 "abc" _ (by decide) (by simp)⟩

/-- C7 counterexample: mode `LA` carries an alpha channel, so the spec
text requires a 3-channel conversion for a JPEG target, but the code
checks only for modes `RGBA` and `P` and leaves `LA` untouched. -/
theorem encode_coercion_counterexample :
    pilHasAlpha "LA" = true ∧ specCoerceMode "JPEG" "LA" = "RGB" ∧
    encodeCoerceMode "JPEG" "LA" = "LA" := by decide

/-- C7 amended: for JPEG/BMP/TIFF targets the encode stage converts to
RGB exactly when the image mode is `RGBA` or `P`; every other mode
(including the alpha-carrying `LA`) and every other target format is
left unchanged. -/
theorem encode_coercion (fmt mode : String)
    (target3 : fmt = "JPEG" ∨ fmt = "BMP" ∨ fmt = "TIFF") :
    ((mode = "RGBA" ∨ mode = "P") → encodeCoerceMode fmt mode = "RGB") ∧
    (mode ≠ "RGBA" → mode ≠ "P" → encodeCoerceMode fmt mode = mode) ∧
    (∀ fmt2 mode2 : String, fmt2 ≠ "JPEG" → fmt2 ≠ "BMP" → fmt2 ≠ "TIFF" →
        encodeCoerceMode fmt2 mode2 = mode2) := by
  refine ⟨?_, ?_, ?_⟩
  · intro hm
    simp [encodeCoerceMode, target3, hm]
  · intro h1 h2
    simp [encodeCoerceMode, h1, h2]
  · intro fmt2 mode2 g1 g2 g3
    simp [encodeCoerceMode, g1, g2, g3]

/-- Witness for C7's amended claim. -/
theorem encode_coercion_witness :
    encodeCoerceMode "JPEG" "RGBA" = "RGB" ∧
    encodeCoerceMode "JPEG" "LA" = "LA" ∧
    encodeCoerceMode "PNG" "RGBA" = "RGBA" := by
  have h1 := encode_coercion "JPEG" "RGBA" (Or.inl rfl)
  have h2 := encode_coercion "JPEG" "LA" (Or.inl rfl)
  exact ⟨h1.1 (Or.inl rfl), h2.2.1 (by decide) (by decide),
         h1.2.2 "PNG" "RGBA" (by decide) (by decide) (by decide)⟩

/-- C10: the preview's downsampling never enlarges — an image already
inside the 400×400 box keeps its dimensions — and the JSON
`"dimensions"` field always reports the final post-thumbnail size of
the encoded PNG. -/
theorem preview_thumbnail :
    (∀ d : Dims, d.width ≤ 400 → d.height ≤ 400 → thumbnailDims d = .ok d) ∧
    (∀ (rotate : String) (fH fV : Bool) (wmT wmP opS : String) (file : UploadedFile)
        (img : Img) (rep : Dims),
        preview_image rotate fH fV wmT wmP opS file = .ok img rep → rep = img.dims) := by
  constructor
  · intro d h1 h2
    simp [thumbnailDims, h1, h2]
  · intro rotate fH fV wmT wmP opS file img rep h
    simp only [preview_image] at h
    split at h
    · exact absurd h (by simp)
    · split at h
      · exact absurd h (by simp)
      · injection h with h1 h2
        subst h1
        exact h2.symm

/-- Witness for C10: a 300×200 image is left unchanged by the
thumbnail step, and a concrete preview run reports exactly the encoded
image's dimensions. -/
theorem preview_thumbnail_witness :
    thumbnailDims ⟨300, 200⟩ = .ok ⟨300, 200⟩ ∧
    (⟨400, 225⟩ : Dims) = (Img.mk ⟨400, 225⟩ "RGB").dims := by
  have h := preview_thumbnail
  exact ⟨h.1 ⟨300, 200⟩ (by decide) (by decide),
         h.2 "0" false false "" "bottom-right" "128" samplePhoto
           ⟨⟨400, 225⟩, "RGB"⟩ ⟨400, 225⟩ (by decide)⟩
